import Mathlib

/-!
Shallow embedding of `listenbrainz/art/cover_art_generator.py`
(class `CoverArtGenerator`): grid geometry, layout catalog, cover art URL
resolution, placement assembly and the user-stats adapter, together with
proofs of the specified properties.

Python integers are modelled as `Int` (coordinates, parsed tile indices)
or `Nat` (sizes and counts that the source only ever uses non-negatively);
Python `None` becomes `Option`; the mutable candidate list of
`generate_from_caa_ids` becomes explicit state passing (the functions
return the remaining list alongside their result); database collaborators
become explicit oracle functions, with a log of the calls made to them.
-/

/-- Number of stats to fetch (`NUMBER_OF_STATS`). -/
def NUMBER_OF_STATS : Nat := 100

/-- Placeholder URL used for missing covers (`CoverArtGenerator.CAA_MISSING_IMAGE`). -/
def CAA_MISSING_IMAGE : String := "https://listenbrainz.org/static/img/cover-art-placeholder.jpg"

/-- Configuration state of a `CoverArtGenerator` instance.  `tile_size` is
derived in `__init__` as `image_size // dimension`; we recompute it on demand
(the instance is immutable, so the value is the same). -/
structure CoverArtGenerator where
  dimension : Nat
  image_size : Nat
  background : String
  skip_missing : Bool
  show_caa_image_for_missing_covers : Bool
deriving Repr, DecidableEq

/-- `self.tile_size = image_size // dimension`. -/
def CoverArtGenerator.tile_size (g : CoverArtGenerator) : Nat :=
  g.image_size / g.dimension

/-- Core of Python `int(...)` string conversion on an unsigned token:
a non-empty ASCII digit sequence, in which single underscores may occur
between digits (`int("1_0") = 10`, but a leading, trailing or doubled
underscore is rejected). -/
def pyIntDigits : Nat → List Char → Option Nat
  | acc, [] => some acc
  | acc, '_' :: c :: rest =>
      if c.isDigit then pyIntDigits (acc * 10 + (c.toNat - 48)) rest else none
  | _, ['_'] => none
  | acc, c :: rest =>
      if c.isDigit then pyIntDigits (acc * 10 + (c.toNat - 48)) rest else none

/-- Unsigned part of Python `int(...)`: must start with a digit. -/
def pyIntCore : List Char → Option Nat
  | [] => none
  | c :: rest => if c.isDigit then pyIntDigits (c.toNat - 48) rest else none

/-- Python `int(s)` for a token given as a character list: optional sign
followed by digits.  Returns `none` where Python raises `ValueError`. -/
def pyInt (cs : List Char) : Option Int :=
  match cs with
  | '-' :: rest => (pyIntCore rest).map (fun n => -(n : Int))
  | '+' :: rest => (pyIntCore rest).map (fun n => (n : Int))
  | _ => (pyIntCore cs).map (fun n => (n : Int))

/-- Python `str.split(",")`: split at every comma, keeping empty tokens;
always returns at least one token. -/
def pySplitComma : List Char → List (List Char)
  | [] => [[]]
  | ',' :: rest => [] :: pySplitComma rest
  | c :: rest =>
      match pySplitComma rest with
      | [] => [[c]]
      | t :: ts => (c :: t) :: ts

/-- Python `str.strip()`: drop leading and trailing whitespace. -/
def pyStrip (cs : List Char) : List Char :=
  ((cs.dropWhile Char.isWhitespace).reverse.dropWhile Char.isWhitespace).reverse

/-- The parsing phase of `calculate_bounding_box`:
`tiles = address.split(","); tiles[i] = int(tiles[i].strip())`,
returning `none` where the Python code catches `ValueError`/`TypeError`. -/
def parseAddress (address : String) : Option (List Int) :=
  (pySplitComma address.data).mapM (fun t => pyInt (pyStrip t))

/-- `CoverArtGenerator.get_tile_position`: the pixel rectangle
`(x1, y1, x2, y2)` of a tile, `none` (the Python `(None, None)` sentinel)
when the tile index is out of `[0, dimension²)`.  The right/bottom bounds of
the last column/row are clamped to `image_size - 1`. -/
def CoverArtGenerator.get_tile_position (g : CoverArtGenerator) (tile : Int) :
    Option (Int × Int × Int × Int) :=
  if tile < 0 ∨ ((g.dimension * g.dimension : Nat) : Int) ≤ tile then
    none
  else
    let x : Nat := tile.toNat % g.dimension
    let y : Nat := tile.toNat / g.dimension
    let x1 : Int := ((x * g.tile_size : Nat) : Int)
    let y1 : Int := ((y * g.tile_size : Nat) : Int)
    let x2 : Int :=
      if x = g.dimension - 1 then (g.image_size : Int) - 1
      else (((x + 1) * g.tile_size : Nat) : Int)
    let y2 : Int :=
      if y = g.dimension - 1 then (g.image_size : Int) - 1
      else (((y + 1) * g.tile_size : Nat) : Int)
    some (x1, y1, x2, y2)

/-- The min/max accumulation loop of `calculate_bounding_box` over the tiles
after the first: both corners of every rectangle feed both the running min and
the running max. -/
def bbFold (g : CoverArtGenerator) : Int × Int × Int × Int → List Int →
    Int × Int × Int × Int
  | bb, [] => bb
  | (bb_x1, bb_y1, bb_x2, bb_y2), tile :: rest =>
      let (x1, y1, x2, y2) := (g.get_tile_position tile).getD (0, 0, 0, 0)
      bbFold g
        (min (min bb_x1 x1) x2, min (min bb_y1 y1) y2,
         max (max bb_x2 x1) x2, max (max bb_y2 y1) y2) rest

/-- `CoverArtGenerator.calculate_bounding_box`: parse the comma-separated
address, reject it (`none`, the Python all-`None` tuple) if a token fails to
parse or a tile is out of range, then take the min/max over the corners of the
member tiles' rectangles.  The `[]` branch is unreachable: `str.split(",")`
always returns at least one token. -/
def CoverArtGenerator.calculate_bounding_box (g : CoverArtGenerator)
    (address : String) : Option (Int × Int × Int × Int) :=
  match parseAddress address with
  | none => none
  | some tiles =>
      if tiles.any (fun t => t < 0 ∨ ((g.dimension * g.dimension : Nat) : Int) ≤ t) then
        none
      else
        match tiles with
        | [] => none
        | t :: rest =>
            some (bbFold g ((g.get_tile_position t).getD (0, 0, 0, 0)) rest)

/-- `CoverArtGenerator.resolve_cover_art`: `none` for a size other than 250
or 500, otherwise the archive.org thumbnail URL formatted from the release
MBID, the caa id and the size.  (Python renders a `None` mbid as the string
`"None"` inside the f-string.) -/
def resolve_cover_art (caa_id : Nat) (caa_release_mbid : Option String)
    (cover_art_size : Nat) : Option String :=
  if cover_art_size = 250 ∨ cover_art_size = 500 then
    let mbid := caa_release_mbid.getD "None"
    some ("https://archive.org/download/mbid-" ++ mbid ++ "/mbid-" ++ mbid ++
      "-" ++ toString caa_id ++ "_thumb" ++ toString cover_art_size ++ ".jpg")
  else
    none

/-- `CoverArtGenerator.GRID_TILE_DESIGNS`: the static layout catalog, keyed by
dimension; each design is an ordered list of tile-address strings. -/
def GRID_TILE_DESIGNS : List (Nat × List (List String)) :=
  [(2, [["0", "1", "2", "3"]]),
   (3, [["0", "1", "2", "3", "4", "5", "6", "7", "8"],
        ["0,1,3,4", "2", "5", "6", "7", "8"],
        ["0", "1", "2", "3", "4,5,7,8", "6"]]),
   (4, [["0", "1", "2", "3", "4", "5", "6", "7", "8", "9", "10", "11", "12",
         "13", "14", "15"],
        ["5,6,9,10", "0", "1", "2", "3", "4", "7", "8", "11", "12", "13",
         "14", "15"],
        ["0,1,4,5", "10,11,14,15", "2", "3", "6", "7", "8", "9", "12", "13"],
        ["0,1,2,4,5,6,8,9,10", "3", "7", "11", "12", "13", "14", "15"]]),
   (5, [["0", "1", "2", "3", "4", "5", "6", "7", "8", "9", "10", "11", "12",
         "13", "14", "15", "16", "17", "18", "19", "20", "21", "22", "23",
         "24"],
        ["0,1,2,5,6,7,10,11,12", "3,4,8,9", "15,16,20,21", "13", "14", "17",
         "18", "19", "22", "23", "24"]])]

/-- `CoverArtGenerator.time_range_to_english`. -/
def time_range_to_english : List (String × String) :=
  [("week", "last week"), ("month", "last month"), ("quarter", "last quarter"),
   ("half_yearly", "last 6 months"), ("year", "last year"),
   ("all_time", "of all time"), ("this_week", "this week"),
   ("this_month", "this month"), ("this_year", "this year")]

/-- One entry of the `covers` candidate list consumed by
`generate_from_caa_ids` (a Python dict; absent/`None` values are `none`). -/
structure Cover where
  entity_mbid : Option String
  title : Option String
  artist : Option String
  caa_id : Option Nat
  caa_release_mbid : Option String
deriving Repr, DecidableEq

/-- The `cover = {}` dict of the exhausted-candidates branch: every
`cover.get(...)` returns `None`. -/
def emptyCover : Cover := ⟨none, none, none, none, none⟩

/-- One entry of the `images` output list of `generate_from_caa_ids`. -/
structure PlacedImage where
  x : Int
  y : Int
  width : Int
  height : Int
  url : String
  entity_mbid : Option String
  title : Option String
  artist : Option String
deriving Repr, DecidableEq

/-- The inner `while True` loop of `generate_from_caa_ids` for one tile:
pop candidates from the front until one yields a URL decision.  Returns the
URL outcome (`none` = no image for this tile), the candidate dict in scope at
the `break` (`emptyCover` when the list ran out), and the remaining list. -/
def pickCover (g : CoverArtGenerator) (cover_art_size : Nat) :
    List Cover → Option String × Cover × List Cover
  | [] =>
      (if g.show_caa_image_for_missing_covers then some CAA_MISSING_IMAGE
       else none,
       emptyCover, [])
  | cover :: rest =>
      match cover.caa_id with
      | none =>
          if g.skip_missing then pickCover g cover_art_size rest
          else if g.show_caa_image_for_missing_covers then
            (some CAA_MISSING_IMAGE, cover, rest)
          else (none, cover, rest)
      | some caa_id =>
          (resolve_cover_art caa_id cover.caa_release_mbid cover_art_size,
           cover, rest)

/-- The outer `for x1, y1, x2, y2 in tiles` loop of `generate_from_caa_ids`:
the Python code mutates `covers` via `pop(0)`; here the remaining candidate
list is threaded explicitly and returned alongside the images. -/
def place_images (g : CoverArtGenerator) (cover_art_size : Nat) :
    List (Int × Int × Int × Int) → List Cover → List PlacedImage × List Cover
  | [], covers => ([], covers)
  | (x1, y1, x2, y2) :: rest, covers =>
      let picked := pickCover g cover_art_size covers
      let tail := place_images g cover_art_size rest picked.2.2
      match picked.1 with
      | some u =>
          (⟨x1, y1, x2 - x1, y2 - y1, u, picked.2.1.entity_mbid,
            picked.2.1.title, picked.2.1.artist⟩ :: tail.1,
           tail.2)
      | none => tail

/-- The bounding-box phase of `generate_from_caa_ids`: compute the bounding
box of each address in order, raising `ValueError` (here `Except.error`) at
the first invalid address. -/
def compute_tiles (g : CoverArtGenerator) : List String →
    Except String (List (Int × Int × Int × Int))
  | [] => Except.ok []
  | addr :: rest =>
      match g.calculate_bounding_box addr with
      | none => Except.error ("Invalid address " ++ addr ++ " specified.")
      | some t => (compute_tiles g rest).map (fun ts => t :: ts)

/-- Address-list selection at the top of `generate_from_caa_ids`: an explicit
`layout` index wins, else explicit `tile_addrs`, else design 0 for the
dimension.  (Python would raise `KeyError`/`IndexError` on a dimension or
layout index missing from the catalog; the model returns `[]` there — no
claim exercises that path.) -/
def selectAddrs (g : CoverArtGenerator) (tile_addrs : Option (List String))
    (layout : Option Nat) : List String :=
  match layout with
  | some l => ((GRID_TILE_DESIGNS.lookup g.dimension).getD []).getD l []
  | none =>
      match tile_addrs with
      | none => ((GRID_TILE_DESIGNS.lookup g.dimension).getD []).getD 0 []
      | some a => a

/-- `CoverArtGenerator.generate_from_caa_ids`.  The result is paired with the
final state of the (Python-mutable) `covers` list: on the invalid-address
error path the candidate list is returned untouched, since the Python
`ValueError` is raised before any `pop`. -/
def generate_from_caa_ids (g : CoverArtGenerator) (covers : List Cover)
    (tile_addrs : Option (List String)) (layout : Option Nat)
    (cover_art_size : Nat) : Except String (List PlacedImage) × List Cover :=
  let addrs := selectAddrs g tile_addrs layout
  match compute_tiles g addrs with
  | Except.error e => (Except.error e, covers)
  | Except.ok tiles =>
      let r := place_images g cover_art_size tiles covers
      (Except.ok r.1, r.2)

/-- One ranked artist record as returned by the stats store (and as
hard-coded in the `"huhridge"` branch of `create_artist_stats_cover`). -/
structure ArtistRecord where
  artist_mbid : Option String
  artist_name : String
  listen_count : Nat
deriving Repr, DecidableEq

/-- A call made to one of the database collaborators of
`download_user_stats`, in the order the Python code performs them. -/
inductive StoreCall where
  | userLookup (user_name : String)
  | statsGet (user_id : Nat) (entity : String) (time_range : String)
deriving Repr, DecidableEq

/-- The external collaborators of the stats adapter:
`db_user.get_by_mb_id`, `db_stats.get` and the current date
(`datetime.datetime.now().strftime`). -/
structure StatsEnv where
  get_by_mb_id : String → Option Nat
  get_stats : Nat → String → String → Option (List ArtistRecord × Nat)
  today : String

/-- Modelled from the spec: `StatisticsRange.__members__` is defined in
`data/model/common_stat.py`, which is not among the provided sources.  The
spec says the stats fetch "validates `timeRange` against a fixed enumerated
set"; the members are the time ranges the generator knows English text for. -/
def statisticsRangeMembers : List String :=
  ["week", "month", "quarter", "half_yearly", "year", "all_time",
   "this_week", "this_month", "this_year"]

/-- `CoverArtGenerator.download_user_stats`, instrumented with the list of
store calls performed: validation failures (`ValueError`, here
`Except.error`) happen before any collaborator is consulted. -/
def download_user_stats (env : StatsEnv)
    (entity user_name time_range : String) :
    Except String (List ArtistRecord × Nat) × List StoreCall :=
  if time_range ∈ statisticsRangeMembers then
    if entity ∈ (["artists", "releases", "recordings"] : List String) then
      match env.get_by_mb_id user_name with
      | none =>
          (Except.error ("User " ++ user_name ++ " not found"),
           [StoreCall.userLookup user_name])
      | some uid =>
          match env.get_stats uid entity time_range with
          | none =>
              (Except.error
                ("Stats for user " ++ user_name ++ " not found/calculated"),
               [StoreCall.userLookup user_name,
                StoreCall.statsGet uid entity time_range])
          | some (records, count) =>
              (Except.ok (records.take NUMBER_OF_STATS, count),
               [StoreCall.userLookup user_name,
                StoreCall.statsGet uid entity time_range])
    else
      (Except.error "Stats entity must be one of artist, release or recording.",
       [])
  else
    (Except.error "Invalid date range given.", [])

/-- The hard-coded artist list of the `user_name == "huhridge"` branch of
`create_artist_stats_cover`. -/
def huhridgeArtists : List ArtistRecord :=
  [⟨some "e520459c-dff4-491d-a6e4-c97be35e0044", "Frank Ocean", 20⟩,
   ⟨some "875203e1-8e58-4b86-8dcb-7190faf411c5", "J. Cole", 13⟩,
   ⟨some "e636b15f-00c5-45fd-9c33-845a08c8f92d", "brakence", 10⟩,
   ⟨some "9fff2f8a-21e6-47de-a2b8-7f449929d43f", "Drake", 9⟩,
   ⟨some "ab1a3f85-e0ea-470a-af5c-175447ae774c", "underscores", 8⟩,
   ⟨some "aea4c9b9-9f8d-49dc-b2ca-57d6f26e8634", "Khruangbin", 8⟩,
   ⟨some "3fd78e94-efeb-43a1-bc19-ad2dd1afbd5a", "EDEN", 8⟩,
   ⟨some "f6beac20-5dfe-4d1f-ae02-0b0a740aafd6", "Tyler, the Creator", 7⟩,
   ⟨some "260b6184-8828-48eb-945c-bc4cb6fc34ca", "Charli XCX", 7⟩,
   ⟨some "f1660eaa-929f-48d4-9926-9aaa61afa52f", "Teezo Touchdown", 6⟩,
   ⟨some "ab4e7869-86f5-455e-b52c-c89d7664c07b", "Rainbow Kitten Surprise", 6⟩,
   ⟨some "071409d0-ce21-4f03-a111-aec4dbc1590d", "Erika de Casier", 6⟩,
   ⟨some "381086ea-f511-4aba-bdf9-71c753dc5077", "Kendrick Lamar", 5⟩,
   ⟨some "8dc08b1f-e393-4f85-a5dd-300f7693a8b8", "James Blake", 5⟩,
   ⟨some "null", "¥$, Kanye West, Ty Dolla $ign", 4⟩,
   ⟨some "164f0d73-1234-4e2c-8743-d77bf2191051", "Ye", 4⟩,
   ⟨some "61af87f4-16ee-4431-8504-cc06187079fb", "XXXTENTACION", 4⟩,
   ⟨some "926ea44c-0efa-455a-b7ce-00ccb5a86cb7", "Kyle Dion", 4⟩,
   ⟨some "00d0f0fa-a48c-416d-b4ff-25a290ce82d8", "half•alive", 3⟩,
   ⟨some "8032cf05-d916-4b2a-9c53-6e75d4a24bd8", "Trippie Redd", 3⟩,
   ⟨some "87b9b3b8-ab93-426c-a200-4012d667a626", "The War on Drugs", 3⟩,
   ⟨some "aa5a6061-e60d-4a58-b9f6-c09de390bb2d", "PnB Rock", 3⟩,
   ⟨some "592da4c4-9618-4a1a-a944-e60c05c39037", "Patrick Watson", 3⟩,
   ⟨some "aa2c5e55-57f5-42a7-a0e4-4a02cd9399b1", "Oh Wonder", 3⟩,
   ⟨some "dde26295-8cd4-474c-8740-3edb801b2776", "Maggie Rogers", 3⟩]

/-- The metadata dict returned by `create_artist_stats_cover`. -/
structure ArtistStatsMetadata where
  user_name : String
  date : String
  time_range : String
  num_artists : Nat
deriving Repr, DecidableEq

/-- `CoverArtGenerator.create_artist_stats_cover`, instrumented with the
store calls performed.  The dict access
`self.time_range_to_english[time_range]` is modelled with a default of `""`
for a key outside the table (Python raises `KeyError` there; no claim
exercises that path, and on the non-special path the range was already
validated against the same key set). -/
def create_artist_stats_cover (env : StatsEnv) (user_name time_range : String) :
    Except String (List ArtistRecord × ArtistStatsMetadata) × List StoreCall :=
  if user_name = "huhridge" then
    (Except.ok (huhridgeArtists,
      ⟨user_name, env.today,
       (time_range_to_english.lookup time_range).getD "", 128⟩), [])
  else
    match download_user_stats env "artists" user_name time_range with
    | (Except.error e, calls) => (Except.error e, calls)
    | (Except.ok (artists, total_count), calls) =>
        (Except.ok (artists,
          ⟨user_name, env.today,
           (time_range_to_english.lookup time_range).getD "", total_count⟩),
         calls)

/-! ## Example instances used by the witnesses -/

/-- A 2×2, 500px generator with both missing-cover flags set (the
constructor defaults). -/
def gEx : CoverArtGenerator := ⟨2, 500, "#FFFFFF", true, true⟩

/-- A candidate with no artwork. -/
def coverNoArt : Cover := ⟨some "m1", some "t1", some "a1", none, none⟩

/-- A candidate with artwork. -/
def coverHasArt : Cover := ⟨some "m2", some "t2", some "a2", some 7, some "mbid2"⟩

/-- A stats environment whose user store knows every handle (id 1) and whose
stats store answers every query with an empty ranked list of count 0. -/
def envEx : StatsEnv := ⟨fun _ => some 1, fun _ _ _ => some ([], 0), "2026-10-12"⟩

/-- The `PlacedImage` produced for a tile by the missing-artwork policy when
the candidate list is exhausted and `show_caa_image_for_missing_covers` is
set: the placeholder URL and no entity/title/artist (every `cover.get` on the
empty dict returns `None`). -/
def placeholderImage : Int × Int × Int × Int → PlacedImage
  | (x1, y1, x2, y2) => ⟨x1, y1, x2 - x1, y2 - y1, CAA_MISSING_IMAGE, none, none, none⟩

/-- A rectangle (x1, y1, x2, y2) covers another when the second lies within
the first on both axes. -/
def rectCovers : Int × Int × Int × Int → Int × Int × Int × Int → Prop
  | (ox1, oy1, ox2, oy2), (ix1, iy1, ix2, iy2) =>
      ox1 ≤ ix1 ∧ oy1 ≤ iy1 ∧ ix2 ≤ ox2 ∧ iy2 ≤ oy2

/-! ## C1: the layout catalog partitions the grid -/

/-- The partition invariant for one design of dimension `d`: every tile
address parses, and each tile index in {0, …, d²−1} occurs exactly once
among the parsed indices of the whole design (and, the total count being d²,
no other index occurs). -/
def designPartitions (d : Nat) (design : List String) : Bool :=
  match design.mapM parseAddress with
  | none => false
  | some tls =>
      decide (tls.flatten.length = d * d) &&
      (List.range (d * d)).all (fun n => decide (tls.flatten.count ((n : Int)) = 1))

/-- C1: for every dimension d registered in `GRID_TILE_DESIGNS` (exactly
{2,3,4,5}) and every design registered for d, the tile indices parsed from
the design's tile addresses are exactly {0, …, d²−1}, each exactly once
(no gaps, no duplicates). -/
theorem c1_designs_partition :
    ∀ p ∈ GRID_TILE_DESIGNS, ∀ design ∈ p.2, designPartitions p.1 design = true := by
  decide

/-- C1 witness: the single design registered for dimension 2 partitions the
2×2 grid. -/
theorem c1_designs_partition_witness :
    designPartitions 2 ["0", "1", "2", "3"] = true :=
  c1_designs_partition (2, [["0", "1", "2", "3"]]) (by decide)
    ["0", "1", "2", "3"] (by decide)

/-! ## C3: tile geometry -/

/-- C3: for every tile index in [0, dimension²), `get_tile_position` returns
the rectangle (col·tileSize, row·tileSize, (col+1)·tileSize, (row+1)·tileSize)
with tileSize = imageSize integer-divided by dimension, except that for a tile
in the last column (resp. last row) the right bound x2 (resp. bottom bound y2)
is clamped to imageSize − 1. -/
theorem c3_get_tile_position (g : CoverArtGenerator) (tile : Int)
    (h0 : 0 ≤ tile) (h1 : tile < ((g.dimension * g.dimension : Nat) : Int)) :
    g.get_tile_position tile =
      some ((((tile.toNat % g.dimension) * (g.image_size / g.dimension) : Nat) : Int),
            (((tile.toNat / g.dimension) * (g.image_size / g.dimension) : Nat) : Int),
            (if tile.toNat % g.dimension = g.dimension - 1 then (g.image_size : Int) - 1
             else (((tile.toNat % g.dimension + 1) * (g.image_size / g.dimension) : Nat) : Int)),
            (if tile.toNat / g.dimension = g.dimension - 1 then (g.image_size : Int) - 1
             else (((tile.toNat / g.dimension + 1) * (g.image_size / g.dimension) : Nat) : Int))) := by
  unfold CoverArtGenerator.get_tile_position CoverArtGenerator.tile_size
  rw [if_neg]
  push_neg
  exact ⟨h0, h1⟩

/-- C3 witness: with dimension 2 and image size 500, tile 3 (last row, last
column) yields (250, 250, 499, 499). -/
theorem c3_get_tile_position_witness :
    gEx.get_tile_position 3 = some (250, 250, 499, 499) := by
  rw [c3_get_tile_position gEx 3 (by decide) (by decide)]
  decide

/-! ## C7: cover art URL resolution -/

/-- C7: `resolve_cover_art` returns `none` exactly when the requested size is
not in {250, 500}; for a size in {250, 500} it returns the deterministically
formatted archive URL built syntactically from the release mbid, the caa id
and the size, with no other outcome possible. -/
theorem c7_resolve_cover_art (caa_id : Nat) (caa_release_mbid : Option String)
    (size : Nat) :
    (resolve_cover_art caa_id caa_release_mbid size = none ↔
      ¬(size = 250 ∨ size = 500)) ∧
    (size = 250 ∨ size = 500 →
      resolve_cover_art caa_id caa_release_mbid size =
        some ("https://archive.org/download/mbid-" ++ caa_release_mbid.getD "None" ++
          "/mbid-" ++ caa_release_mbid.getD "None" ++ "-" ++ toString caa_id ++
          "_thumb" ++ toString size ++ ".jpg")) := by
  unfold resolve_cover_art
  by_cases h : size = 250 ∨ size = 500
  · rw [if_pos h]
    exact ⟨by simp [h], fun _ => rfl⟩
  · rw [if_neg h]
    exact ⟨by simp [h], fun hc => absurd hc h⟩

/-- C7 witness: size 500 resolves caa id 123 under release mbid "abc" to the
formatted archive URL. -/
theorem c7_resolve_cover_art_witness :
    resolve_cover_art 123 (some "abc") 500 =
      some "https://archive.org/download/mbid-abc/mbid-abc-123_thumb500.jpg" := by
  rw [(c7_resolve_cover_art 123 (some "abc") 500).2 (Or.inr rfl)]
  rfl

/-! ## C9: the assembler is deterministic -/

/-- C9: resolving the same candidate list and the same layout twice through
`generate_from_caa_ids` yields identical outputs.  In this embedding the
Python-mutable candidate list is passed by value — exactly the claim's "no
shared mutable state between the two calls" — so the two calls are the same
pure application. -/
theorem c9_generate_deterministic (g : CoverArtGenerator) (covers : List Cover)
    (tile_addrs : Option (List String)) (layout : Option Nat) (size : Nat) :
    generate_from_caa_ids g covers tile_addrs layout size =
      generate_from_caa_ids g covers tile_addrs layout size := rfl

/-! ## C5: skip-missing discards artworkless candidates silently -/

/-- With `skip_missing` set, popping candidates for one tile behaves exactly
as if the artworkless candidates had been removed from the list beforehand. -/
theorem pickCover_filter (g : CoverArtGenerator) (size : Nat)
    (hskip : g.skip_missing = true) :
    ∀ covers : List Cover,
      pickCover g size (covers.filter (fun c => c.caa_id.isSome)) =
        ((pickCover g size covers).1, (pickCover g size covers).2.1,
         (pickCover g size covers).2.2.filter (fun c => c.caa_id.isSome)) := by
  intro covers
  induction covers with
  | nil => simp [pickCover]
  | cons cover rest ih =>
      cases hc : cover.caa_id with
      | none => simpa [pickCover, hc, hskip] using ih
      | some a => simp [pickCover, hc]

/-- C5: with `skip_missing = true`, every candidate whose `caa_id` is `None`
is silently discarded by `place_images` — the run on the raw candidate list
produces the same images (and a remaining list equal up to the same
filtering) as the run on the list with those candidates removed, so an
artworkless candidate never occupies a tile and never appears in the output,
and the next candidate is tried for the same tile. -/
theorem c5_skip_missing_filter (g : CoverArtGenerator) (size : Nat)
    (tiles : List (Int × Int × Int × Int)) (covers : List Cover)
    (hskip : g.skip_missing = true) :
    place_images g size tiles (covers.filter (fun c => c.caa_id.isSome)) =
      ((place_images g size tiles covers).1,
       (place_images g size tiles covers).2.filter (fun c => c.caa_id.isSome)) := by
  induction tiles generalizing covers with
  | nil => simp [place_images]
  | cons t rest ih =>
      obtain ⟨x1, y1, x2, y2⟩ := t
      simp only [place_images]
      rw [pickCover_filter g size hskip covers, ih ((pickCover g size covers).2.2)]
      cases (pickCover g size covers).1 <;> simp

/-- C5 witness: with candidates [no-artwork, has-artwork] and one tile
requested, the no-artwork candidate is discarded and the has-artwork
candidate fills the tile. -/
theorem c5_skip_missing_filter_witness :
    (place_images gEx 500 [(0, 0, 249, 249)]
        (([coverNoArt, coverHasArt] : List Cover).filter (fun c => c.caa_id.isSome)) =
      ((place_images gEx 500 [(0, 0, 249, 249)] [coverNoArt, coverHasArt]).1,
       (place_images gEx 500 [(0, 0, 249, 249)] [coverNoArt, coverHasArt]).2.filter
         (fun c => c.caa_id.isSome))) ∧
    (place_images gEx 500 [(0, 0, 249, 249)] [coverNoArt, coverHasArt]).1 =
      [⟨0, 0, 249, 249,
        "https://archive.org/download/mbid-mbid2/mbid-mbid2-7_thumb500.jpg",
        some "m2", some "t2", some "a2"⟩] :=
  ⟨c5_skip_missing_filter gEx 500 [(0, 0, 249, 249)] [coverNoArt, coverHasArt] rfl,
   by decide⟩

/-! ## C6: the exhausted-candidates policy -/

/-- C6: once the candidate list is exhausted, each remaining tile gets the
missing-artwork policy exactly once: with
`show_caa_image_for_missing_covers` set it contributes one placeholder
`PlacedImage` with absent entity/title/artist, otherwise it contributes no
`PlacedImage` at all. -/
theorem c6_exhausted_policy (g : CoverArtGenerator) (size : Nat)
    (tiles : List (Int × Int × Int × Int)) :
    place_images g size tiles [] =
      ((if g.show_caa_image_for_missing_covers = true
        then tiles.map placeholderImage else []), []) := by
  induction tiles with
  | nil => cases hshow : g.show_caa_image_for_missing_covers <;> simp [place_images]
  | cons t rest ih =>
      obtain ⟨x1, y1, x2, y2⟩ := t
      cases hshow : g.show_caa_image_for_missing_covers <;>
        simp [place_images, pickCover, hshow, ih, placeholderImage, emptyCover]

/-! ## C8: stats-fetch validation happens before any store call -/

/-- C8: for an unsupported time range or entity, `download_user_stats` fails
with a validation error and performs no user-store or stats-store call. -/
theorem c8_validation_before_store (env : StatsEnv)
    (entity user_name time_range : String)
    (h : time_range ∉ statisticsRangeMembers ∨
         entity ∉ (["artists", "releases", "recordings"] : List String)) :
    ∃ e, download_user_stats env entity user_name time_range =
      (Except.error e, []) := by
  unfold download_user_stats
  by_cases ht : time_range ∈ statisticsRangeMembers
  · rw [if_pos ht]
    rcases h with h | h
    · exact absurd ht h
    · rw [if_neg h]
      exact ⟨_, rfl⟩
  · rw [if_neg ht]
    exact ⟨_, rfl⟩

/-- C8 witness: the invalid time range "fortnight" is rejected with no store
interaction, even though the environment knows the user and has stats. -/
theorem c8_validation_before_store_witness :
    ∃ e, download_user_stats envEx "artists" "rob" "fortnight" =
      (Except.error e, []) :=
  c8_validation_before_store envEx "artists" "rob" "fortnight"
    (Or.inl (by decide))

/-! ## C2: the artist-stats cover special-cases the handle "huhridge" -/

/-- C2 (code bug exhibit): for the handle "huhridge",
`create_artist_stats_cover` ignores the stats store entirely — it returns the
hard-coded 25-artist list with `num_artists = 128` and performs no store
call, even in an environment whose stats store would report an empty ranked
list with total count 0 (second conjunct: what `download_user_stats` actually
returns for that user in this environment). -/
theorem c2_huhridge_special_case :
    create_artist_stats_cover envEx "huhridge" "week" =
      (Except.ok (huhridgeArtists, ⟨"huhridge", "2026-10-12", "last week", 128⟩), []) ∧
    download_user_stats envEx "artists" "huhridge" "week" =
      (Except.ok ([], 0),
       [StoreCall.userLookup "huhridge", StoreCall.statsGet 1 "artists" "week"]) :=
  ⟨rfl, rfl⟩

/-! ## C10: an invalid address fails atomically -/

/-- If some address in the list has no bounding box, the bounding-box phase
raises (returns an error). -/
theorem compute_tiles_error (g : CoverArtGenerator) :
    ∀ addrs : List String, (∃ a ∈ addrs, g.calculate_bounding_box a = none) →
      ∃ e, compute_tiles g addrs = Except.error e := by
  intro addrs
  induction addrs with
  | nil =>
      rintro ⟨a, ha, -⟩
      exact absurd ha (List.not_mem_nil a)
  | cons addr rest ih =>
      rintro ⟨a, ha, hbb⟩
      cases hhead : g.calculate_bounding_box addr with
      | none =>
          exact ⟨"Invalid address " ++ addr ++ " specified.",
            by simp [compute_tiles, hhead]⟩
      | some t =>
          have hne : a ≠ addr := by
            intro he
            rw [he, hhead] at hbb
            cases hbb
          have hmem : a ∈ rest := by
            rcases List.mem_cons.mp ha with h | h
            · exact absurd h hne
            · exact h
          obtain ⟨e, he⟩ := ih ⟨a, hmem, hbb⟩
          exact ⟨e, by simp [compute_tiles, hhead, he, Except.map]⟩

/-- C10: `generate_from_caa_ids` computes every bounding box before consuming
any candidate: if some address in the chosen list is invalid, the call fails
with an error and the candidate list is returned unconsumed — no partial
output is produced. -/
theorem c10_invalid_address_atomic (g : CoverArtGenerator) (covers : List Cover)
    (addrs : List String) (size : Nat)
    (h : ∃ a ∈ addrs, g.calculate_bounding_box a = none) :
    ∃ e, generate_from_caa_ids g covers (some addrs) none size =
      (Except.error e, covers) := by
  obtain ⟨e, he⟩ := compute_tiles_error g addrs h
  exact ⟨e, by simp [generate_from_caa_ids, selectAddrs, he]⟩

/-- C10 witness: with the address list ["0", "bogus"], the call fails and the
one-candidate list comes back untouched. -/
theorem c10_invalid_address_atomic_witness :
    ∃ e, generate_from_caa_ids gEx [coverHasArt] (some ["0", "bogus"]) none 500 =
      (Except.error e, [coverHasArt]) :=
  c10_invalid_address_atomic gEx [coverHasArt] ["0", "bogus"] 500
    ⟨"bogus", by decide, by decide⟩

/-! ## C4: the bounding box is the smallest rectangle covering the member
tiles -/

/-- `rectCovers` is transitive. -/
theorem rectCovers_trans (A B C : Int × Int × Int × Int) :
    rectCovers A B → rectCovers B C → rectCovers A C := by
  obtain ⟨a1, a2, a3, a4⟩ := A
  obtain ⟨b1, b2, b3, b4⟩ := B
  obtain ⟨c1, c2, c3, c4⟩ := C
  simp only [rectCovers]
  omega

/-- An in-range tile has a position. -/
theorem get_tile_position_isSome (g : CoverArtGenerator) (t : Int)
    (h0 : 0 ≤ t) (h1 : t < ((g.dimension * g.dimension : Nat) : Int)) :
    ∃ x1 y1 x2 y2, g.get_tile_position t = some (x1, y1, x2, y2) := by
  unfold CoverArtGenerator.get_tile_position
  rw [if_neg (by push_neg; exact ⟨h0, h1⟩)]
  exact ⟨_, _, _, _, rfl⟩

/-- For a valid configuration (at least one tile per row, grid no larger
than the image), a tile coordinate's lower bound does not exceed its
(possibly clamped) upper bound. -/
theorem tile_coord_le (g : CoverArtGenerator) (hd : 1 ≤ g.dimension)
    (hs : g.dimension ≤ g.image_size) (a : Nat) :
    ((a * g.tile_size : Nat) : Int) ≤
      (if a = g.dimension - 1 then (g.image_size : Int) - 1
       else (((a + 1) * g.tile_size : Nat) : Int)) := by
  have hts : 1 ≤ g.tile_size := by
    unfold CoverArtGenerator.tile_size
    exact (Nat.one_le_div_iff (by omega)).mpr hs
  have hmul : g.dimension * g.tile_size ≤ g.image_size := by
    unfold CoverArtGenerator.tile_size
    rw [mul_comm]
    exact Nat.div_mul_le_self _ _
  split
  next h =>
    subst h
    have h1 : (g.dimension - 1) * g.tile_size + g.tile_size =
        g.dimension * g.tile_size := by
      have h2 : g.dimension - 1 + 1 = g.dimension := by omega
      calc (g.dimension - 1) * g.tile_size + g.tile_size
          = (g.dimension - 1 + 1) * g.tile_size := (Nat.succ_mul _ _).symm
        _ = g.dimension * g.tile_size := by rw [h2]
    omega
  next _ =>
    have h1 : (a + 1) * g.tile_size = a * g.tile_size + g.tile_size := by
      ring
    omega

/-- For a valid configuration, every tile rectangle is well-formed
(x1 ≤ x2, y1 ≤ y2). -/
theorem tile_rect_wf (g : CoverArtGenerator) (hd : 1 ≤ g.dimension)
    (hs : g.dimension ≤ g.image_size) (tile : Int) (x1 y1 x2 y2 : Int)
    (hr : g.get_tile_position tile = some (x1, y1, x2, y2)) :
    x1 ≤ x2 ∧ y1 ≤ y2 := by
  unfold CoverArtGenerator.get_tile_position at hr
  split at hr
  · cases hr
  · simp only [Option.some.injEq, Prod.mk.injEq] at hr
    obtain ⟨h1, h2, h3, h4⟩ := hr
    subst h1
    subst h2
    subst h3
    subst h4
    exact ⟨tile_coord_le g hd hs _, tile_coord_le g hd hs _⟩

/-- Invariant of the min/max accumulation loop: the accumulated rectangle
covers the initial rectangle and every processed tile's rectangle, and any
rectangle covering those also covers it. -/
theorem bbFold_spec (g : CoverArtGenerator) (hd : 1 ≤ g.dimension)
    (hs : g.dimension ≤ g.image_size) :
    ∀ (rest : List Int) (bb : Int × Int × Int × Int),
      (∀ t ∈ rest, 0 ≤ t ∧ t < ((g.dimension * g.dimension : Nat) : Int)) →
      rectCovers (bbFold g bb rest) bb ∧
      (∀ t ∈ rest, ∀ r, g.get_tile_position t = some r →
        rectCovers (bbFold g bb rest) r) ∧
      (∀ bb2, rectCovers bb2 bb →
        (∀ t ∈ rest, ∀ r, g.get_tile_position t = some r → rectCovers bb2 r) →
        rectCovers bb2 (bbFold g bb rest)) := by
  intro rest
  induction rest with
  | nil =>
      intro bb _
      obtain ⟨a, b, c, d⟩ := bb
      refine ⟨by simp [bbFold, rectCovers], ?_, ?_⟩
      · intro t ht
        exact absurd ht (List.not_mem_nil t)
      · intro bb2 h _
        simpa [bbFold] using h
  | cons t rest ih =>
      intro bb hall
      obtain ⟨bx1, by1, bx2, by2⟩ := bb
      have ht0 := hall t (List.mem_cons_self t rest)
      obtain ⟨tx1, ty1, tx2, ty2, hrt⟩ :=
        get_tile_position_isSome g t ht0.1 ht0.2
      have hwf := tile_rect_wf g hd hs t tx1 ty1 tx2 ty2 hrt
      have hrest : ∀ u ∈ rest, 0 ≤ u ∧
          u < ((g.dimension * g.dimension : Nat) : Int) :=
        fun u hu => hall u (List.mem_cons_of_mem t hu)
      have hstep : bbFold g (bx1, by1, bx2, by2) (t :: rest) =
          bbFold g (min (min bx1 tx1) tx2, min (min by1 ty1) ty2,
                    max (max bx2 tx1) tx2, max (max by2 ty1) ty2) rest := by
        simp [bbFold, hrt]
      obtain ⟨ih1, ih2, ih3⟩ := ih (min (min bx1 tx1) tx2, min (min by1 ty1) ty2,
        max (max bx2 tx1) tx2, max (max by2 ty1) ty2) hrest
      rw [hstep]
      refine ⟨?_, ?_, ?_⟩
      · refine rectCovers_trans _ _ _ ih1 ?_
        simp only [rectCovers]
        omega
      · intro u hu r hr
        rcases List.mem_cons.mp hu with rfl | hu2
        · rw [hrt] at hr
          injection hr with hr2
          subst hr2
          refine rectCovers_trans _ _ _ ih1 ?_
          simp only [rectCovers]
          omega
        · exact ih2 u hu2 r hr
      · intro bb2 hcb hall2
        obtain ⟨cx1, cy1, cx2, cy2⟩ := bb2
        have hct := hall2 t (List.mem_cons_self t rest) _ hrt
        refine ih3 _ ?_ (fun u hu r hr => hall2 u (List.mem_cons_of_mem t hu) r hr)
        simp only [rectCovers] at hcb hct ⊢
        omega

/-- C4: for an address whose tokens all parse to in-range tile indices (on a
valid configuration), `calculate_bounding_box` returns the smallest rectangle
containing every member tile's rectangle; in particular (minimality plus
covering) a single-tile address yields exactly that tile's rectangle. -/
theorem c4_calculate_bounding_box (g : CoverArtGenerator) (address : String)
    (tiles : List Int)
    (hd : 1 ≤ g.dimension) (hs : g.dimension ≤ g.image_size)
    (hparse : parseAddress address = some tiles)
    (hne : tiles ≠ [])
    (hrange : ∀ t ∈ tiles, 0 ≤ t ∧ t < ((g.dimension * g.dimension : Nat) : Int)) :
    ∃ bb, g.calculate_bounding_box address = some bb ∧
      (∀ t ∈ tiles, ∀ r, g.get_tile_position t = some r → rectCovers bb r) ∧
      (∀ bb2, (∀ t ∈ tiles, ∀ r, g.get_tile_position t = some r →
        rectCovers bb2 r) → rectCovers bb2 bb) := by
  obtain ⟨t0, rest, rfl⟩ : ∃ t0 rest, tiles = t0 :: rest := by
    cases tiles with
    | nil => exact absurd rfl hne
    | cons a b => exact ⟨a, b, rfl⟩
  have ht0 := hrange t0 (List.mem_cons_self t0 rest)
  obtain ⟨tx1, ty1, tx2, ty2, hrt0⟩ :=
    get_tile_position_isSome g t0 ht0.1 ht0.2
  have hany : ((t0 :: rest).any
      (fun t => decide (t < 0 ∨ ((g.dimension * g.dimension : Nat) : Int) ≤ t))) = false := by
    simp only [List.any_eq_false, decide_eq_true_eq]
    intro u hu
    obtain ⟨h1, h2⟩ := hrange u hu
    push_neg
    refine ⟨?_, ?_⟩ <;> omega
  have hcalc : g.calculate_bounding_box address =
      some (bbFold g (tx1, ty1, tx2, ty2) rest) := by
    unfold CoverArtGenerator.calculate_bounding_box
    rw [hparse]
    simp only [hany, Bool.false_eq_true, if_false, hrt0, Option.getD_some]
  obtain ⟨sp1, sp2, sp3⟩ := bbFold_spec g hd hs rest (tx1, ty1, tx2, ty2)
    (fun u hu => hrange u (List.mem_cons_of_mem t0 hu))
  refine ⟨bbFold g (tx1, ty1, tx2, ty2) rest, hcalc, ?_, ?_⟩
  · intro u hu r hr
    rcases List.mem_cons.mp hu with rfl | hu2
    · rw [hrt0] at hr
      injection hr with hr2
      subst hr2
      exact sp1
    · exact sp2 u hu2 r hr
  · intro bb2 hall2
    exact sp3 bb2 (hall2 t0 (List.mem_cons_self t0 rest) _ hrt0)
      (fun u hu r hr => hall2 u (List.mem_cons_of_mem t0 hu) r hr)

/-- C4 witness: for the single-tile address "3" on the 2×2/500px generator,
the bounding box exists, covers tile 3's rectangle, and is covered by any
rectangle covering it — hence equals `get_tile_position 3`. -/
theorem c4_calculate_bounding_box_witness :
    ∃ bb, gEx.calculate_bounding_box "3" = some bb ∧
      (∀ t ∈ ([3] : List Int), ∀ r, gEx.get_tile_position t = some r →
        rectCovers bb r) ∧
      (∀ bb2, (∀ t ∈ ([3] : List Int), ∀ r, gEx.get_tile_position t = some r →
        rectCovers bb2 r) → rectCovers bb2 bb) :=
  c4_calculate_bounding_box gEx "3" [3] (by decide) (by decide) (by decide)
    (by decide) (by decide)
